import Mathlib

/-!
Verification development for the tgbotVerify repository.

The definitions below are shallow embeddings of the repository's Python code:
  * `SheerIDVerifier.verify` (src/military/sheerid_verifier.py, lines 204-377),
  * `TempEmailService._extract_verification_url` and
    `TempEmailService.click_verification_link` (src/utils/temp_email.py),
  * `SheerIDVerifier.parse_verification_id` (src/military/sheerid_verifier.py,
    lines 119-125),
  * `run_registration_flow` / `save_to_excel` (src/outlook/register.py),
  * the module-global `registration_lock` gate (src/outlook/register.py).

Network and browser interactions are abstracted as explicit environment
records: each value describes the responses/outcomes the external world hands
to one run, and the embedded functions reproduce the control flow of the
source on those inputs.
-/

/-- Single-quote character, used to render Python string representations. -/
def sqChar : Char := Char.ofNat 39

/-- Single-quote as a string. -/
def pySq : String := sqChar.toString

/-- JSON values that appear in the response fields read by the code:
strings and arrays of strings (`errorIds`). -/
inductive JVal where
  | s (v : String)
  | l (v : List String)
deriving DecidableEq

/-- A parsed JSON object (Python dict), as an association list with the
insertion order Python preserves; keys are assumed distinct as in a dict. -/
abbrev JDict := List (String × JVal)

/-- Python `d.get(k)`: first binding of `k`, or `None`. -/
def dget (d : JDict) (k : String) : Option JVal :=
  match d with
  | [] => none
  | (k2, v) :: rest => if k = k2 then some v else dget rest k

/-- Python `repr` of one of our string values: the value between single
quotes (escape-free values only, as in the payloads modelled here). -/
def pyQuote (v : String) : String := pySq ++ v ++ pySq

/-- Python `repr`/`str` of a `JVal`. -/
def pyReprJVal : JVal → String
  | .s v => pyQuote v
  | .l v => "[" ++ String.intercalate ", " (v.map pyQuote) ++ "]"

/-- Python `str` of a dict, as produced by the f-strings in the source:
keys in insertion order, `repr` of keys and values. -/
def pyReprDict (d : JDict) : String :=
  "\x7b" ++ String.intercalate ", " (d.map fun kv => pyQuote kv.1 ++ ": " ++ pyReprJVal kv.2) ++ "\x7d"

/-- Python `", ".join(data.get("errorIds", ["Unknown error"]))`
(sheerid_verifier.py lines 216 and 259).  Joining a plain string joins its
characters, exactly as Python does. -/
def joinErrorIds (d : JDict) : String :=
  match dget d "errorIds" with
  | none => "Unknown error"
  | some (.s v) => String.intercalate ", " (v.data.map Char.toString)
  | some (.l v) => String.intercalate ", " v

/-- Python `str` of an `Optional` value interpolated into an f-string
(sheerid_verifier.py line 364): `None` when absent, the bare string
otherwise, list repr for lists. -/
def pyStrOfGet : Option JVal → String
  | none => "None"
  | some (.s v) => v
  | some (.l v) => pyReprJVal (.l v)

/-- Values stored in the result dict returned by `verify`. -/
inductive RVal where
  | rb (v : Bool)
  | rs (v : String)
  | rnull
  | rj (v : JVal)
  | rd (v : JDict)
deriving DecidableEq

/-- The result dict returned by `SheerIDVerifier.verify`. -/
abbrev RDict := List (String × RVal)

/-- Python dict lookup on a result dict. -/
def dlookup (k : String) : RDict → Option RVal
  | [] => none
  | (k2, v) :: rest => if k = k2 then some v else dlookup k rest

/-- A `.get(...)` result stored into a result dict: `None` becomes Python
`None`, otherwise the JSON value itself. -/
def optJ : Option JVal → RVal
  | none => .rnull
  | some v => .rj v

/-- Environment of the temp-email sub-flow used inside `verify`
(sheerid_verifier.py lines 270-313): the outcome of
`wait_for_sheerid_email` (`none` = timeout), the pair returned by
`click_verification_link`, and the response of the final status GET
(`Except.error` = transport exception, status code is discarded by the
source via `final_data, _ = ...`). -/
structure TempEnv where
  waitResult : Option String
  clickResult : Bool × String
  finalGet : Except String (JDict × Nat)

/-- Environment of one `verify` run: the step-1 and step-2 responses
(`Except.error e` models a raised transport exception with message `e`,
`Except.ok (data, status)` a parsed JSON body plus HTTP status), and the
temp-email service (`none` when `self.temp_email_service` is `None`). -/
structure SheerEnv where
  step1 : Except String (JDict × Nat)
  step2 : Except String (JDict × Nat)
  temp : Option TempEnv

/-- The dict built by the `except` boundary of `verify`
(sheerid_verifier.py lines 371-377). -/
def failDict (vid msg : String) : RDict :=
  [("success", .rb false), ("message", .rs msg), ("verification_id", .rs vid)]

/-- The failure message returned when the email loop cannot be completed
automatically (sheerid_verifier.py line 319). -/
def emailLoopFailMsg : String :=
  "SheerID 要求验证邮箱，自动验证失败。请使用真实可接收邮件的邮箱重新获取验证链接。"

/-- The dict returned at sheerid_verifier.py lines 317-323; `fstep` is the
value of the Python variable `final_step` at that point. -/
def emailFailDict (vid : String) (fstep : Option JVal) (d2 : JDict) : RDict :=
  [("success", .rb false),
   ("message", .rs emailLoopFailMsg),
   ("verification_id", .rs vid),
   ("current_step", optJ fstep),
   ("status", .rd d2)]

/-- Shallow embedding of `SheerIDVerifier.verify`
(src/military/sheerid_verifier.py lines 204-377), starting at the step-1
request: identity generation (lines 167-202) only fills the request bodies,
which the environment abstracts.  Exceptions raised anywhere inside the
`try` block are caught at lines 371-377 and become `failDict`. -/
def verify (vid : String) (env : SheerEnv) : RDict :=
  match env.step1 with
  | .error e => failDict vid e
  | .ok (d1, st1) =>
    if st1 ≠ 200 then
      failDict vid ("步骤 1 失败 (状态码 " ++ toString st1 ++ "): " ++ pyReprDict d1)
    else if dget d1 "currentStep" = some (.s "error") then
      failDict vid ("步骤 1 错误: " ++ joinErrorIds d1)
    else
      match env.step2 with
      | .error e => failDict vid e
      | .ok (d2, st2) =>
        if st2 ≠ 200 then
          failDict vid ("步骤 2 失败 (状态码 " ++ toString st2 ++ "): " ++ pyReprDict d2)
        else if dget d2 "currentStep" = some (.s "error") then
          failDict vid ("步骤 2 错误: " ++ joinErrorIds d2)
        else
          if dget d2 "currentStep" = some (.s "emailLoop") then
            match env.temp with
            | none => emailFailDict vid (dget d2 "currentStep") d2
            | some t =>
              match t.waitResult with
              | none => emailFailDict vid (dget d2 "currentStep") d2
              | some _url =>
                if t.clickResult.1 then
                  match t.finalGet with
                  | .error e => failDict vid e
                  | .ok (fd, _st) =>
                    if (dget fd "currentStep").getD (.s "unknown") = .s "success" then
                      [("success", .rb true), ("pending", .rb false),
                       ("message", .rs "认证成功（已自动完成邮箱验证）"),
                       ("verification_id", .rs vid),
                       ("redirect_url", optJ (dget fd "redirectUrl")),
                       ("reward_code", optJ (dget fd "rewardCode")),
                       ("status", .rd fd)]
                    else if (dget fd "currentStep").getD (.s "unknown") = .s "pending" then
                      [("success", .rb true), ("pending", .rb true),
                       ("message", .rs "邮箱已验证，等待审核"),
                       ("verification_id", .rs vid),
                       ("redirect_url", optJ (dget fd "redirectUrl")),
                       ("current_step", .rj ((dget fd "currentStep").getD (.s "unknown"))),
                       ("status", .rd fd)]
                    else
                      emailFailDict vid (some ((dget fd "currentStep").getD (.s "unknown"))) d2
                else
                  emailFailDict vid (dget d2 "currentStep") d2
          else if dget d2 "currentStep" = some (.s "docUpload") then
            [("success", .rb false),
             ("message", .rs "需要上传军人身份证明文档，当前版本暂不支持"),
             ("verification_id", .rs vid),
             ("current_step", optJ (dget d2 "currentStep")),
             ("status", .rd d2)]
          else if dget d2 "currentStep" = some (.s "success") then
            [("success", .rb true), ("pending", .rb false),
             ("message", .rs "认证成功"),
             ("verification_id", .rs vid),
             ("redirect_url", optJ (dget d2 "redirectUrl")),
             ("reward_code", optJ (dget d2 "rewardCode")),
             ("status", .rd d2)]
          else if dget d2 "currentStep" = some (.s "pending") then
            [("success", .rb true), ("pending", .rb true),
             ("message", .rs "信息已提交，等待审核"),
             ("verification_id", .rs vid),
             ("redirect_url", optJ (dget d2 "redirectUrl")),
             ("current_step", optJ (dget d2 "currentStep")),
             ("status", .rd d2)]
          else
            [("success", .rb false),
             ("message", .rs ("未知状态: " ++ pyStrOfGet (dget d2 "currentStep"))),
             ("verification_id", .rs vid),
             ("redirect_url", optJ (dget d2 "redirectUrl")),
             ("current_step", optJ (dget d2 "currentStep")),
             ("status", .rd d2)]

/-- Case-insensitive character comparison (Python `re.IGNORECASE`). -/
def ciEq (a b : Char) : Bool := a.toLower == b.toLower

/-- Does `pat` start the list `l` (exact, case-sensitive)?  Embeds the
Python substring test together with `subOccurs`. -/
def listStartsWith : List Char → List Char → Bool
  | [], _ => true
  | _ :: _, [] => false
  | p :: ps, c :: cs => p == c && listStartsWith ps cs

/-- Does `pat` occur as a contiguous substring of the list? -/
def subOccurs (pat : List Char) : List Char → Bool
  | [] => listStartsWith pat []
  | c :: cs => listStartsWith pat (c :: cs) || subOccurs pat cs

/-- Python `pat in s` substring test. -/
def strContains (s pat : String) : Bool := subOccurs pat.data s.data

/-- Python `text.lower()` as used at temp_email.py line 280, character by
character (ASCII case folding; the markers compared against are ASCII). -/
def strLower (s : String) : String := String.mk (s.data.map Char.toLower)

/-- Shallow embedding of `TempEmailService.click_verification_link`
(src/utils/temp_email.py lines 264-296).  The environment is the outcome of
the single GET: `Except.error e` a transport exception with message `e`,
`Except.ok (status, text)` a response.  Marker checks run on the lowercased
body, success markers first, exactly as in the source. -/
def click_verification_link (env : Except String (Nat × String)) : Bool × String :=
  match env with
  | .error e => (false, e)
  | .ok (st, text) =>
    if st = 200 then
      let content := strLower text
      if strContains content "success" || strContains content "verified" || strContains content "confirmed" then
        (true, "邮箱验证成功")
      else if strContains content "error" || strContains content "expired" then
        (false, "验证链接已过期或无效")
      else
        (true, "验证链接已访问")
    else
      (false, "访问验证链接失败: " ++ toString st)

/-- The negated character class `[^\s"'<>]` shared by all four URL patterns
of `_extract_verification_url` (src/utils/temp_email.py lines 241-250);
`\s` is taken as the ASCII whitespace characters. -/
def notBad (c : Char) : Bool :=
  !(c = ' ' || c = '\t' || c = '\n' || c = '\r' || c = '\x0b' || c = '\x0c' ||
    c = '"' || c = sqChar || c = '<' || c = '>')

/-- Length of the longest run of class characters at the head of the list:
the most a greedy `[^\s"'<>]*` can consume. -/
def runLen (l : List Char) : Nat := (l.takeWhile notBad).length

/-- Regex atoms needed for the four source patterns: case-insensitive
literals, an optional character (`s?`), and greedy star/plus over the
`[^\s"'<>]` class. -/
inductive RE where
  | lit (p : List Char)
  | opt (c : Char)
  | star
  | plus

/-- Consume a case-insensitive literal. -/
def matchLit : List Char → List Char → Option (List Char)
  | [], l => some l
  | _ :: _, [] => none
  | p :: ps, c :: cs => if ciEq p c then matchLit ps cs else none

mutual

/-- Backtracking matcher for a sequence of atoms at the head of the input,
in Python's backtracking order (greedy, longest first); returns the
remaining input after the first successful match.  `fuel` bounds recursion
depth and is supplied generously by `findallAux`. -/
def matchSeq : Nat → List RE → List Char → Option (List Char)
  | 0, _, _ => none
  | _ + 1, [], l => some l
  | f + 1, .lit p :: rest, l =>
      match matchLit p l with
      | some l2 => matchSeq f rest l2
      | none => none
  | f + 1, .opt c :: rest, l =>
      match l with
      | [] => matchSeq f rest l
      | c2 :: l2 =>
          if ciEq c c2 then
            match matchSeq f rest l2 with
            | some r => some r
            | none => matchSeq f rest l
          else matchSeq f rest l
  | f + 1, .star :: rest, l => starTry f rest l (runLen l) 0
  | f + 1, .plus :: rest, l =>
      if runLen l = 0 then none else starTry f rest l (runLen l) 1

/-- Try star/plus lengths `k, k-1, ..., kmin` (greedy backtracking). -/
def starTry : Nat → List RE → List Char → Nat → Nat → Option (List Char)
  | 0, _, _, _, _ => none
  | f + 1, rest, l, k, kmin =>
      match matchSeq f rest (l.drop k) with
      | some r => some r
      | none => if k ≤ kmin then none else starTry f rest l (k - 1) kmin

end

/-- Fuel sufficient for `matchSeq` on our ≤ 9-atom patterns: recursion
depth is at most one step per atom plus one per backtracking position of
each of the at-most-three stars. -/
def fuelFor (l : List Char) : Nat := 4 * l.length + 64

/-- Python `re.findall` for a groupless pattern: scan start positions left
to right, return each non-overlapping match, continue after a match from
its end. -/
def findallAux (p : List RE) : Nat → List Char → List (List Char)
  | 0, _ => []
  | _ + 1, [] => []
  | f + 1, c :: cs =>
      match matchSeq (fuelFor (c :: cs)) p (c :: cs) with
      | some rest =>
          (c :: cs).take ((c :: cs).length - rest.length) :: findallAux p f rest
      | none => findallAux p f cs

/-- All matches of pattern `p` in `l`, leftmost first. -/
def findall (p : List RE) (l : List Char) : List (List Char) :=
  findallAux p (l.length + 1) l

/-- Shared head of the four patterns: `https?://`. -/
def reHead : List RE := [.lit "http".data, .opt 's', .lit "://".data]

/-- Pattern 1 of `_extract_verification_url`:
`https?://[^\s"'<>]*sheerid\.com[^\s"'<>]*verify[^\s"'<>]*`. -/
def reVerify : List RE :=
  reHead ++ [.star, .lit "sheerid.com".data, .star, .lit "verify".data, .star]

/-- Pattern 2: `https?://[^\s"'<>]*sheerid\.com[^\s"'<>]*token=[^\s"'<>]+`. -/
def reToken : List RE :=
  reHead ++ [.star, .lit "sheerid.com".data, .star, .lit "token=".data, .plus]

/-- Pattern 3: `https?://[^\s"'<>]*sheerid\.com[^\s"'<>]*confirm[^\s"'<>]*`. -/
def reConfirm : List RE :=
  reHead ++ [.star, .lit "sheerid.com".data, .star, .lit "confirm".data, .star]

/-- Pattern 4: `https?://[^\s"'<>]*sheerid\.com/[^\s"'<>]+`. -/
def reGeneric : List RE :=
  reHead ++ [.star, .lit "sheerid.com/".data, .plus]

/-- Python `url.replace("&amp;", "&")` (temp_email.py line 256):
left-to-right, non-overlapping. -/
def replaceAmp : List Char → List Char
  | '&' :: 'a' :: 'm' :: 'p' :: ';' :: rest => '&' :: replaceAmp rest
  | c :: rest => c :: replaceAmp rest
  | [] => []

/-- Python `re.sub(r'["\x27>].*$', '', url)` (temp_email.py line 258) on a
match, which never contains a newline: drop everything from the first
quote, apostrophe or `>` onward. -/
def stripFromQuote (l : List Char) : List Char :=
  l.takeWhile fun c => !(c = '"' || c = sqChar || c = '>')

/-- The clean-up applied to `matches[0]` (temp_email.py lines 256-259). -/
def cleanupUrl (m : List Char) : String := String.mk (stripFromQuote (replaceAmp m))

/-- Shallow embedding of `TempEmailService._extract_verification_url`
(src/utils/temp_email.py lines 224-262): concatenate the html and text
bodies, try the four patterns in order, and return the cleaned first match
of the first pattern that matches at all. -/
def extract_verification_url (html text : String) : Option String :=
  let content := (html ++ text).data
  match [reVerify, reToken, reConfirm, reGeneric].findSome?
      (fun p => (findall p content).head?) with
  | some m => some (cleanupUrl m)
  | none => none

/-- Hexadecimal character class `[a-f0-9]` under `re.IGNORECASE`. -/
def isHexCI (c : Char) : Bool :=
  ('0' ≤ c && c ≤ '9') || ('a' ≤ c && c ≤ 'f') || ('A' ≤ c && c ≤ 'F')

/-- The literal key of the pattern `verificationId=([a-f0-9]+)`. -/
def vidKey : List Char := "verificationId=".data

/-- Case-insensitive prefix test. -/
def ciStartsWith : List Char → List Char → Bool
  | [], _ => true
  | _ :: _, [] => false
  | p :: ps, c :: cs => ciEq p c && ciStartsWith ps cs

/-- Scan for the leftmost match of `verificationId=([a-f0-9]+)` under
`re.IGNORECASE` and return the greedy capture. -/
def scanVid : List Char → Option String
  | [] => none
  | c :: cs =>
      if ciStartsWith vidKey (c :: cs) then
        match ((c :: cs).drop vidKey.length).takeWhile isHexCI with
        | [] => scanVid cs
        | h :: hs => some (String.mk (h :: hs))
      else scanVid cs

/-- Shallow embedding of `SheerIDVerifier.parse_verification_id`
(src/military/sheerid_verifier.py lines 119-125):
`re.search(r"verificationId=([a-f0-9]+)", url, re.IGNORECASE)`. -/
def parse_verification_id (url : String) : Option String := scanVid url.data

/-- Is the head character a hex digit?  Declarative form of "the key is
followed by a hexadecimal token". -/
def headHex : List Char → Bool
  | [] => false
  | c :: _ => isHexCI c

/-- Declarative reading of the claim: the URL contains (case-insensitively)
the `verificationId=` key immediately followed by a hexadecimal character. -/
def hasKeyHex : List Char → Bool
  | [] => false
  | c :: cs =>
      (ciStartsWith vidKey (c :: cs) && headHex ((c :: cs).drop vidKey.length)) ||
        hasKeyHex cs

/-- Message returned on every failed human-verification wait in
`run_registration_flow` (src/outlook/register.py lines 341, 351, 440, 457,
531). -/
def humanMsg : String :=
  "Human verification detected. Please complete it in the browser and try again."

/-- Message returned at register.py line 356. -/
def piplMsg : String :=
  "PIPL consent required. Please click " ++ pySq ++ "同意并继续" ++ pySq ++
    " in the opened browser window."

/-- Python test of register.py lines 417/419: the validation text signals a
taken name. -/
def takenHit (m : String) : Bool :=
  strContains m "已被使用" || strContains m "taken" || strContains m "exists"

/-- Python test of register.py line 408: the validation text complains
about the e-mail address format. -/
def emailFieldHit (m : String) : Bool :=
  strContains m "someone@example.com" || strContains m "电子邮件地址" ||
    strContains m "email address"

/-- Embedding of the username-validation block of `run_registration_flow`
(src/outlook/register.py lines 399-420).  `m1` is the stripped text of the
first validation alert (`none` when no alert is present), `m2` the text of
the alert still present after the full-address retry.  Returns the failure
message when the block returns, `none` when control falls through. -/
def validationCheck (m1 m2 : Option String) : Option String :=
  match m1 with
  | none => none
  | some m =>
    if m = "" then none
    else if emailFieldHit m then
      match m2 with
      | some m2v => if takenHit m2v then some "Email already taken." else none
      | none => none
    else if takenHit m then some "Username already taken."
    else none

/-- Environment of one `run_registration_flow` run
(src/outlook/register.py lines 284-554): one field per external checkpoint,
in source order.  `Option String` fields carry the failure message
(`settle_interstitials`) or the exception text of a raised wait; `Bool`
fields record whether the checkpoint passed. -/
structure RegEnv where
  /-- `settle_interstitials` at line 335: `none` = ok. -/
  settle1 : Option String
  /-- human-verification wait at lines 338-341 passed (or no overlay). -/
  human1 : Bool
  /-- `settle_interstitials` at line 345. -/
  settle2 : Option String
  /-- human-verification wait at lines 348-351. -/
  human2 : Bool
  /-- PIPL consent form visible at lines 353-356. -/
  piplVisible : Bool
  /-- the e-mail input appeared within its wait at line 375. -/
  emailInputFound : Bool
  /-- when the input did not appear: a human-verification iframe is
  present (line 377), selecting between the two messages of lines 380/382. -/
  humanAtEmailWait : Bool
  /-- first validation-alert text at lines 401-406. -/
  validation1 : Option String
  /-- validation-alert text after the retry at lines 415-416. -/
  validation2 : Option String
  /-- `settle_interstitials` at line 422. -/
  settle3 : Option String
  /-- exception text of the password-field wait at line 429 (caught at
  line 550 as a flow error). -/
  passwordExc : Option String
  /-- `settle_interstitials` at line 434. -/
  settle4 : Option String
  /-- human-verification wait at lines 437-440. -/
  human3 : Bool
  /-- exception text of the name-field wait at line 445. -/
  nameExc : Option String
  /-- birth-month selected (native select, popup fallback, or manual wait;
  lines 474-494; `false` = the manual wait also timed out). -/
  monthOk : Bool
  /-- birth-day selected (lines 496-516). -/
  dayOk : Bool
  /-- `settle_interstitials` at line 521. -/
  settle5 : Option String
  /-- human-verification wait at lines 528-531. -/
  human4 : Bool
  /-- blocked/unusual-activity marker in the page at lines 534-538. -/
  blocked : Bool
  /-- the final wait at line 545 saw a post-signup destination URL. -/
  finalRedirect : Bool

/-- Observable outcome of one registration run: the returned success flag
and message, plus how many times `save_to_excel` (register.py line 540) was
invoked during the run. -/
structure RegResult where
  success : Bool
  message : String
  saves : Nat
deriving DecidableEq

/-- Shallow embedding of `run_registration_flow`
(src/outlook/register.py lines 284-554), instrumented with the number of
`save_to_excel` calls.  Every return statement of the source appears in
source order; the single `save_to_excel(account)` call site at line 540 is
the only point where `saves` becomes 1. -/
def run_registration_flow (env : RegEnv) : RegResult :=
  match env.settle1 with
  | some m => ⟨false, m, 0⟩
  | none =>
    if !env.human1 then ⟨false, humanMsg, 0⟩
    else
      match env.settle2 with
      | some m => ⟨false, m, 0⟩
      | none =>
        if !env.human2 then ⟨false, humanMsg, 0⟩
        else if env.piplVisible then ⟨false, piplMsg, 0⟩
        else if !env.emailInputFound then
          if env.humanAtEmailWait then
            ⟨false, "Human verification detected. Please complete the CAPTCHA in the opened browser window and try again.", 0⟩
          else
            ⟨false, "Email input not found. The sign-up flow may have changed or is blocked.", 0⟩
        else
          match validationCheck env.validation1 env.validation2 with
          | some m => ⟨false, m, 0⟩
          | none =>
            match env.settle3 with
            | some m => ⟨false, m, 0⟩
            | none =>
              match env.passwordExc with
              | some e => ⟨false, "Flow error: " ++ e, 0⟩
              | none =>
                match env.settle4 with
                | some m => ⟨false, m, 0⟩
                | none =>
                  if !env.human3 then ⟨false, humanMsg, 0⟩
                  else
                    match env.nameExc with
                    | some e => ⟨false, "Flow error: " ++ e, 0⟩
                    | none =>
                      if !env.monthOk then
                        ⟨false, "Birth month selection failed. Please select month/day manually in the browser and try again.", 0⟩
                      else if !env.dayOk then
                        ⟨false, "Birth day selection failed. Please select month/day manually in the browser and try again.", 0⟩
                      else
                        match env.settle5 with
                        | some m => ⟨false, m, 0⟩
                        | none =>
                          if !env.human4 then ⟨false, humanMsg, 0⟩
                          else if env.blocked then
                            ⟨false, "Account creation blocked by security.", 0⟩
                          else if env.finalRedirect then
                            ⟨true, "Registration successful!", 1⟩
                          else
                            ⟨false, "Timed out waiting for completion.", 1⟩

/-- State of the run-serializing gate: the runs currently inside the
critical section and the FIFO queue of waiters.  Models the module-global
`registration_lock = asyncio.Lock()` of src/outlook/register.py line 15,
acquired for the whole flow by `async with registration_lock:` at
line 289. -/
structure GateState where
  active : List Nat
  waiting : List Nat
deriving DecidableEq

/-- Events on the gate: a trigger request `arrive r` starting
`run_registration_flow` (the `acquire` of the async-with), and `finish`,
the active run releasing the lock after teardown. -/
inductive GateEv where
  | arrive (r : Nat)
  | finish

/-- Initial gate state: lock free, no waiters. -/
def gateInit : GateState := ⟨[], []⟩

/-- Transition function modelling asyncio.Lock semantics as used by the
source: `acquire` succeeds immediately only when the lock is free and no
one is queued, otherwise the caller is appended to the FIFO waiter queue
(never rejected or dropped); `release` hands the lock to the first
waiter. -/
def gateStep (s : GateState) (e : GateEv) : GateState :=
  match e with
  | .arrive r =>
      if s.active = [] ∧ s.waiting = [] then ⟨[r], s.waiting⟩
      else ⟨s.active, s.waiting ++ [r]⟩
  | .finish =>
      match s.waiting with
      | [] => ⟨[], []⟩
      | r :: rest => ⟨[r], rest⟩


/-- The boolean stored under `"success"` in a result dict, when present. -/
def successOf (r : RDict) : Option Bool :=
  match dlookup "success" r with
  | some (.rb b) => some b
  | _ => none

/-- The string stored under `"message"` in a result dict, when present. -/
def messageOf (r : RDict) : Option String :=
  match dlookup "message" r with
  | some (.rs m) => some m
  | _ => none

set_option maxHeartbeats 1600000 in
/-- C1: for every environment — every step-2 `currentStep` value (success,
pending, emailLoop, docUpload, an unknown value, or no value at all) and
every transport outcome — `verify` returns exactly one dict (it is a total
function of the environment, hence deterministic) carrying a boolean
`success` and a string `message`; and a transport exception is converted at
the orchestrator boundary (lines 371-377) into the failed outcome
`failDict` instead of escaping. -/
theorem verify_total_outcome (vid : String) (env : SheerEnv) :
    ((successOf (verify vid env)).isSome = true ∧
      (messageOf (verify vid env)).isSome = true) ∧
    (∀ e, env.step1 = .error e →
      verify vid env = failDict vid e ∧
      successOf (verify vid env) = some false) := by
  constructor
  · unfold verify
    repeat' split
    all_goals exact ⟨rfl, rfl⟩
  · intro e he
    unfold verify
    rw [he]
    exact ⟨rfl, rfl⟩

/-- Witness environment for the boundary part of C1: the step-1 request
raises a transport exception. -/
def c1wEnv : SheerEnv := ⟨.error "boom", .error "x", none⟩

/-- C1 witness: the boundary clause applied at `c1wEnv`. -/
theorem verify_total_outcome_witness :
    verify "v" c1wEnv = failDict "v" "boom" ∧
    successOf (verify "v" c1wEnv) = some false :=
  (verify_total_outcome "v" c1wEnv).2 "boom" rfl

/-- Prefix test is reflexive. -/
lemma listStartsWith_refl (l : List Char) : listStartsWith l l = true := by
  induction l with
  | nil => rfl
  | cons c cs ih => simp [listStartsWith, ih]

/-- A list occurs as a substring of anything it ends. -/
lemma subOccurs_append (pre pat : List Char) : subOccurs pat (pre ++ pat) = true := by
  induction pre with
  | nil =>
    cases pat with
    | nil => rfl
    | cons c cs => simp [subOccurs, listStartsWith_refl]
  | cons c cs ih => simp [subOccurs, ih]

/-- Python: `b in (a + b)` is always true. -/
lemma strContains_append_right (a b : String) : strContains (a ++ b) b = true := by
  simpa [strContains, String.data_append] using subOccurs_append a.data b.data

/-- C2 (amended): for a step-1 response `(d1, st1)`: when the HTTP status
is 200 and `currentStep` is `"error"`, `verify` aborts with a failed
outcome whose message is `"步骤 1 错误: "` followed by the joined
`errorIds` (so it contains the joined ids), with no `pending` entry; when
the HTTP status is not 200 (this branch runs first, even if `currentStep`
is also `"error"`), the failed outcome's message instead embeds the status
code and the Python rendering of the whole payload, not the joined ids. -/
theorem verify_step1_error_outcomes (vid : String) (env : SheerEnv)
    (d1 : JDict) (st1 : Nat) (h : env.step1 = .ok (d1, st1)) :
    (st1 = 200 → dget d1 "currentStep" = some (.s "error") →
      verify vid env = failDict vid ("步骤 1 错误: " ++ joinErrorIds d1) ∧
      strContains ("步骤 1 错误: " ++ joinErrorIds d1) (joinErrorIds d1) = true ∧
      successOf (verify vid env) = some false ∧
      dlookup "pending" (verify vid env) = none) ∧
    (st1 ≠ 200 →
      verify vid env = failDict vid
        ("步骤 1 失败 (状态码 " ++ toString st1 ++ "): " ++ pyReprDict d1) ∧
      successOf (verify vid env) = some false ∧
      dlookup "pending" (verify vid env) = none) := by
  constructor
  · intro h200 herr
    subst h200
    unfold verify
    rw [h]
    simp [herr, successOf, failDict, dlookup, strContains_append_right]
  · intro hne
    unfold verify
    rw [h]
    simp [hne, successOf, failDict, dlookup]

/-- Witness environment for C2: step-1 answers 200 with
`currentStep = "error"` and two error ids. -/
def c2wEnv : SheerEnv :=
  ⟨.ok ([("currentStep", .s "error"), ("errorIds", .l ["idA", "idB"])], 200),
   .error "unused", none⟩

/-- C2 witness: the amended theorem applied at `c2wEnv`. -/
theorem verify_step1_error_outcomes_witness :
    verify "v" c2wEnv =
      failDict "v" ("步骤 1 错误: " ++
        joinErrorIds [("currentStep", .s "error"), ("errorIds", .l ["idA", "idB"])]) ∧
    strContains ("步骤 1 错误: " ++
        joinErrorIds [("currentStep", .s "error"), ("errorIds", .l ["idA", "idB"])])
      (joinErrorIds [("currentStep", .s "error"), ("errorIds", .l ["idA", "idB"])]) = true ∧
    successOf (verify "v" c2wEnv) = some false ∧
    dlookup "pending" (verify "v" c2wEnv) = none :=
  (verify_step1_error_outcomes "v" c2wEnv
      [("currentStep", .s "error"), ("errorIds", .l ["idA", "idB"])] 200 rfl).1
    rfl rfl

/-- The step-1 payload of the C2 counterexample. -/
def c2d1 : JDict := [("currentStep", .s "error"), ("errorIds", .l ["idA", "idB"])]

/-- The C2 counterexample environment: the same error payload but HTTP
status 500. -/
def c2cEnv : SheerEnv := ⟨.ok (c2d1, 500), .error "unused", none⟩

/-- C2 counterexample: a step-1 response whose `currentStep` is `"error"`
(and whose status is 500, also covered by the claim's non-200 clause)
produces a failed outcome whose message does *not* contain the joined
`errorIds` `"idA, idB"`: the non-200 branch embeds the Python repr of the
payload, in which the ids appear quoted individually. -/
theorem verify_step1_error_counterexample :
    dget c2d1 "currentStep" = some (.s "error") ∧
    successOf (verify "v" c2cEnv) = some false ∧
    messageOf (verify "v" c2cEnv) =
      some ("步骤 1 失败 (状态码 500): " ++ pyReprDict c2d1) ∧
    strContains ("步骤 1 失败 (状态码 500): " ++ pyReprDict c2d1)
      (joinErrorIds c2d1) = false := by
  refine ⟨rfl, rfl, ?_, ?_⟩ <;> decide

/-- C3: step 1 succeeds (HTTP 200, `currentStep` =
`collectInactiveMilitaryPersonalInfo`) and step 2 answers HTTP 200 with
`currentStep = "success"`, `redirectUrl = "https://x"`,
`rewardCode = "R1"`; then `verify` returns success `true`, pending
`false`, redirect_url `"https://x"` and reward_code `"R1"`. -/
theorem verify_success_scenario (vid : String) (env : SheerEnv) (d1 d2 : JDict)
    (h1 : env.step1 = .ok (d1, 200))
    (h1s : dget d1 "currentStep" = some (.s "collectInactiveMilitaryPersonalInfo"))
    (h2 : env.step2 = .ok (d2, 200))
    (h2s : dget d2 "currentStep" = some (.s "success"))
    (hr : dget d2 "redirectUrl" = some (.s "https://x"))
    (hw : dget d2 "rewardCode" = some (.s "R1")) :
    successOf (verify vid env) = some true ∧
    dlookup "pending" (verify vid env) = some (.rb false) ∧
    dlookup "redirect_url" (verify vid env) = some (.rj (.s "https://x")) ∧
    dlookup "reward_code" (verify vid env) = some (.rj (.s "R1")) := by
  unfold verify
  rw [h1, h2]
  simp [h1s, h2s, hr, hw, successOf, dlookup, optJ]

/-- Witness environment for C3. -/
def c3wEnv : SheerEnv :=
  ⟨.ok ([("currentStep", .s "collectInactiveMilitaryPersonalInfo")], 200),
   .ok ([("currentStep", .s "success"), ("redirectUrl", .s "https://x"),
         ("rewardCode", .s "R1")], 200),
   none⟩

/-- C3 witness: the theorem applied at `c3wEnv`. -/
theorem verify_success_scenario_witness :
    successOf (verify "v" c3wEnv) = some true ∧
    dlookup "pending" (verify "v" c3wEnv) = some (.rb false) ∧
    dlookup "redirect_url" (verify "v" c3wEnv) = some (.rj (.s "https://x")) ∧
    dlookup "reward_code" (verify "v" c3wEnv) = some (.rj (.s "R1")) :=
  verify_success_scenario "v" c3wEnv
    [("currentStep", .s "collectInactiveMilitaryPersonalInfo")]
    [("currentStep", .s "success"), ("redirectUrl", .s "https://x"),
     ("rewardCode", .s "R1")]
    rfl rfl rfl rfl rfl rfl

/-- C4: the step-2 response says `emailLoop`, the mailbox poll yields a
confirmation link, following it reports success, and the status GET on the
verification id answers `currentStep = "pending"`; then `verify` returns
success `true` and pending `true`. -/
theorem verify_emailloop_pending (vid : String) (env : SheerEnv)
    (d1 d2 fd : JDict) (t : TempEnv) (u : String) (st : Nat)
    (h1 : env.step1 = .ok (d1, 200))
    (h1e : dget d1 "currentStep" ≠ some (.s "error"))
    (h2 : env.step2 = .ok (d2, 200))
    (h2s : dget d2 "currentStep" = some (.s "emailLoop"))
    (ht : env.temp = some t)
    (hu : t.waitResult = some u)
    (hc : t.clickResult.1 = true)
    (hg : t.finalGet = .ok (fd, st))
    (hf : dget fd "currentStep" = some (.s "pending")) :
    successOf (verify vid env) = some true ∧
    dlookup "pending" (verify vid env) = some (.rb true) := by
  unfold verify
  rw [h1, h2]
  simp [h1e, h2s, ht, hu, hc, hg, hf, successOf, dlookup]

/-- Witness environment for C4. -/
def c4wEnv : SheerEnv :=
  ⟨.ok ([("currentStep", .s "collectInactiveMilitaryPersonalInfo")], 200),
   .ok ([("currentStep", .s "emailLoop")], 200),
   some ⟨some "https://sheerid.com/verify?x=1", (true, "邮箱验证成功"),
         .ok ([("currentStep", .s "pending")], 200)⟩⟩

/-- C4 witness: the theorem applied at `c4wEnv`. -/
theorem verify_emailloop_pending_witness :
    successOf (verify "v" c4wEnv) = some true ∧
    dlookup "pending" (verify "v" c4wEnv) = some (.rb true) :=
  verify_emailloop_pending "v" c4wEnv
    [("currentStep", .s "collectInactiveMilitaryPersonalInfo")]
    [("currentStep", .s "emailLoop")]
    [("currentStep", .s "pending")]
    ⟨some "https://sheerid.com/verify?x=1", (true, "邮箱验证成功"),
     .ok ([("currentStep", .s "pending")], 200)⟩
    "https://sheerid.com/verify?x=1" 200
    rfl (by decide) rfl rfl rfl rfl rfl rfl rfl

/-- C5 (amended): when the step-2 response says `emailLoop` and the
mailbox poll times out (`wait_for_sheerid_email` returns no link), `verify`
returns a failed outcome whose message is the fixed Chinese string of
line 319 — it contains `"邮箱"` (the Chinese word for mailbox/e-mail) and
`"SheerID"`, but not the ASCII string `"email"` the claim asks for. -/
theorem verify_emailloop_timeout (vid : String) (env : SheerEnv)
    (d1 d2 : JDict) (t : TempEnv)
    (h1 : env.step1 = .ok (d1, 200))
    (h1e : dget d1 "currentStep" ≠ some (.s "error"))
    (h2 : env.step2 = .ok (d2, 200))
    (h2s : dget d2 "currentStep" = some (.s "emailLoop"))
    (ht : env.temp = some t)
    (hu : t.waitResult = none) :
    successOf (verify vid env) = some false ∧
    messageOf (verify vid env) = some emailLoopFailMsg ∧
    strContains emailLoopFailMsg "邮箱" = true ∧
    strContains emailLoopFailMsg "SheerID" = true := by
  refine ⟨?_, ?_, by decide, by decide⟩ <;>
    (unfold verify
     rw [h1, h2]
     simp [h1e, h2s, ht, hu, successOf, messageOf, emailFailDict, dlookup])

/-- Environment for the C5 counterexample and witness: step 2 says
`emailLoop`, the mailbox poll times out. -/
def c5env : SheerEnv :=
  ⟨.ok ([("currentStep", .s "collectInactiveMilitaryPersonalInfo")], 200),
   .ok ([("currentStep", .s "emailLoop")], 200),
   some ⟨none, (false, ""), .error "unused"⟩⟩

/-- C5 counterexample: on the timeout path the outcome is failed, but its
message does not contain the string `"email"`, contradicting the claim. -/
theorem verify_emailloop_timeout_counterexample :
    successOf (verify "v" c5env) = some false ∧
    messageOf (verify "v" c5env) = some emailLoopFailMsg ∧
    strContains emailLoopFailMsg "email" = false := by
  refine ⟨rfl, rfl, by decide⟩

/-- C5 witness: the amended theorem applied at `c5env`. -/
theorem verify_emailloop_timeout_witness :
    successOf (verify "v" c5env) = some false ∧
    messageOf (verify "v" c5env) = some emailLoopFailMsg ∧
    strContains emailLoopFailMsg "邮箱" = true ∧
    strContains emailLoopFailMsg "SheerID" = true :=
  verify_emailloop_timeout "v" c5env
    [("currentStep", .s "collectInactiveMilitaryPersonalInfo")]
    [("currentStep", .s "emailLoop")]
    ⟨none, (false, ""), .error "unused"⟩
    rfl (by decide) rfl rfl rfl rfl

/-- C6: link extraction is a pure function of the message body (running it
twice yields the same result), and whenever the exact verify-path pattern
has a match — in particular when the generic provider-domain pattern also
matches somewhere in the body — the returned URL is the cleaned first
match of the verify-path pattern, which is tried first, not a URL merely
matched by the generic pattern. -/
theorem extract_prefers_verify_pattern (html text : String) (m : List Char)
    (h1 : (findall reVerify (html ++ text).data).head? = some m)
    (h4 : findall reGeneric (html ++ text).data ≠ []) :
    extract_verification_url html text = extract_verification_url html text ∧
    m ∈ findall reVerify (html ++ text).data ∧
    extract_verification_url html text = some (cleanupUrl m) := by
  refine ⟨rfl, ?_, ?_⟩
  · exact List.mem_of_mem_head? h1
  · have h1b := h1
    rw [String.data_append] at h1b
    unfold extract_verification_url
    simp [h1b]

/-- Body used for the C6 witness: both the verify-path pattern and the
generic provider-domain pattern match. -/
def c6text : String := "http://sheerid.com/verify http://sheerid.com/a"

/-- C6 witness: the theorem applied at the concrete body `c6text`. -/
theorem extract_prefers_verify_pattern_witness :
    extract_verification_url "" c6text = some (cleanupUrl "http://sheerid.com/verify".data) :=
  (extract_prefers_verify_pattern "" c6text "http://sheerid.com/verify".data
    (by decide) (by decide)).2.2


/-- C7 (amended): for an HTTP-200 response, the lowercased text is checked
against success/verified/confirmed markers first; if one is present the
result is followed = true (even if an error marker is also present — the
fail-closed reading of the claim fails there); an error/expired marker
yields followed = false only when no success marker is present; text with
no marker at all yields followed = true; a non-200 status or a transport
exception yields followed = false. -/
theorem click_marker_dispatch (env : Except String (Nat × String)) :
    (∀ st text, env = .ok (st, text) →
      (st = 200 →
        ((strContains (strLower text) "success" || strContains (strLower text) "verified" ||
            strContains (strLower text) "confirmed") = true →
          (click_verification_link env).1 = true) ∧
        ((strContains (strLower text) "success" || strContains (strLower text) "verified" ||
            strContains (strLower text) "confirmed") = false →
          (strContains (strLower text) "error" || strContains (strLower text) "expired") = true →
          (click_verification_link env).1 = false) ∧
        ((strContains (strLower text) "success" || strContains (strLower text) "verified" ||
            strContains (strLower text) "confirmed") = false →
          (strContains (strLower text) "error" || strContains (strLower text) "expired") = false →
          (click_verification_link env).1 = true)) ∧
      (st ≠ 200 → (click_verification_link env).1 = false)) ∧
    (∀ e, env = .error e → click_verification_link env = (false, e)) := by
  constructor
  · rintro st text rfl
    constructor
    · intro h200
      subst h200
      refine ⟨?_, ?_, ?_⟩
      · intro hs
        have hd : strContains (strLower text) "success" = true ∨
            strContains (strLower text) "verified" = true ∨
            strContains (strLower text) "confirmed" = true := by simpa [or_assoc] using hs
        simp only [click_verification_link]
        rcases hd with h | h | h <;> simp [h]
      · intro hs he
        have hd : strContains (strLower text) "success" = false ∧
            strContains (strLower text) "verified" = false ∧
            strContains (strLower text) "confirmed" = false := by simpa [and_assoc] using hs
        have hed : strContains (strLower text) "error" = true ∨
            strContains (strLower text) "expired" = true := by simpa using he
        simp only [click_verification_link]
        rcases hed with h | h <;> simp [hd.1, hd.2.1, hd.2.2, h]
      · intro hs he
        have hd : strContains (strLower text) "success" = false ∧
            strContains (strLower text) "verified" = false ∧
            strContains (strLower text) "confirmed" = false := by simpa [and_assoc] using hs
        have hed : strContains (strLower text) "error" = false ∧
            strContains (strLower text) "expired" = false := by simpa using he
        simp only [click_verification_link]
        simp [hd.1, hd.2.1, hd.2.2, hed.1, hed.2]
    · intro hne
      simp [click_verification_link, hne]
  · rintro e rfl
    rfl

/-- C7 counterexample: a 200 response whose text contains the error marker
`"error"` (together with `"success"`) is reported as followed = true —
the claim's "fail-closed on explicit negative markers" clause is violated
because success markers are checked first. -/
theorem click_marker_counterexample :
    strContains (strLower "success error") "error" = true ∧
    click_verification_link (.ok (200, "success error")) = (true, "邮箱验证成功") := by
  exact ⟨by decide, by decide⟩

/-- C7 witness: the amended theorem applied at a 200 response containing
only an error marker. -/
theorem click_marker_dispatch_witness :
    (click_verification_link (.ok (200, "link expired"))).1 = false :=
  (((click_marker_dispatch (.ok (200, "link expired"))).1 200 "link expired" rfl).1
    rfl).2.1 (by decide) (by decide)

/-- If the input nowhere contains the key followed by a hex character, the
regex scan finds nothing. -/
lemma scanVid_none_of_not_hasKeyHex (l : List Char) (h : hasKeyHex l = false) :
    scanVid l = none := by
  induction l with
  | nil => rfl
  | cons c cs ih =>
    unfold hasKeyHex at h
    rcases Bool.or_eq_false_iff.mp h with ⟨h1, h2⟩
    unfold scanVid
    by_cases hsw : ciStartsWith vidKey (c :: cs) = true
    · rw [if_pos hsw]
      rw [hsw] at h1
      have hh : headHex ((c :: cs).drop vidKey.length) = false := by simpa using h1
      cases hd : (c :: cs).drop vidKey.length with
      | nil => simpa [hd] using ih h2
      | cons d ds =>
        rw [hd] at hh
        have hdx : isHexCI d = false := hh
        simpa [hd, List.takeWhile, hdx] using ih h2
    · rw [if_neg hsw]
      exact ih h2

/-- C8: `parse_verification_id` extracts `"abc123ef"` from the scenario-D
URL, and returns no id for any URL that nowhere contains the
`verificationId=` key (case-insensitively) followed by a hexadecimal
character. -/
theorem parse_verification_id_spec :
    parse_verification_id "https://x/?verificationId=abc123ef" = some "abc123ef" ∧
    ∀ url : String, hasKeyHex url.data = false → parse_verification_id url = none := by
  refine ⟨by decide, ?_⟩
  intro url h
  exact scanVid_none_of_not_hasKeyHex url.data h

/-- C8 witness: the no-key clause applied at a URL without the query key. -/
theorem parse_verification_id_spec_witness :
    hasKeyHex ("https://x/?id=5").data = false ∧
    parse_verification_id "https://x/?id=5" = none :=
  ⟨by decide, parse_verification_id_spec.2 "https://x/?id=5" (by decide)⟩

/-- A run reaches the `save_to_excel(account)` call at register.py
line 540 exactly when every checkpoint before it passes (all
interstitials settle, human checks pass, no PIPL form, the e-mail input
appears, validation falls through, no wait raises, birth month/day get
selected, and the block check finds no marker). -/
def reachesSave (env : RegEnv) : Bool :=
  env.settle1.isNone && env.human1 && env.settle2.isNone && env.human2 &&
  !env.piplVisible && env.emailInputFound &&
  (validationCheck env.validation1 env.validation2).isNone &&
  env.settle3.isNone && env.passwordExc.isNone && env.settle4.isNone &&
  env.human3 && env.nameExc.isNone && env.monthOk && env.dayOk &&
  env.settle5.isNone && env.human4 && !env.blocked

/-- C9 (amended): `save_to_excel` is invoked exactly once on every run
that reaches the save point (line 540) — in particular exactly once per
successful run — and never on a run that fails at an earlier checkpoint;
but a run that reaches the save point and then times out waiting for the
final redirect has already saved, so a failed outcome does not imply an
unchanged sink. -/
theorem save_per_run (env : RegEnv) :
    ((run_registration_flow env).saves = if reachesSave env then 1 else 0) ∧
    ((run_registration_flow env).success = true →
      (run_registration_flow env).saves = 1) := by
  unfold run_registration_flow reachesSave
  repeat' split
  all_goals simp_all

/-- C9 counterexample environment: every checkpoint passes but the final
redirect never appears (the line-545 wait times out). -/
def c9cEnv : RegEnv :=
  ⟨none, true, none, true, false, true, false, none, none, none, none, none,
   true, none, true, true, none, true, false, false⟩

/-- C9 counterexample: a run whose outcome is failed (timeout at the final
wait) has nevertheless invoked `save_to_excel` once — the save at line 540
precedes the wait at line 545, so the sink is not unchanged on this failed
run. -/
theorem save_on_failed_run_counterexample :
    (run_registration_flow c9cEnv).success = false ∧
    (run_registration_flow c9cEnv).message = "Timed out waiting for completion." ∧
    (run_registration_flow c9cEnv).saves = 1 :=
  ⟨rfl, rfl, rfl⟩

/-- C9 witness environment: every checkpoint passes and the final redirect
is observed. -/
def c9wEnv : RegEnv :=
  ⟨none, true, none, true, false, true, false, none, none, none, none, none,
   true, none, true, true, none, true, false, true⟩

/-- C9 witness: the amended theorem applied at the successful run. -/
theorem save_per_run_witness :
    (run_registration_flow c9wEnv).saves = 1 :=
  (save_per_run c9wEnv).2 rfl

/-- Preservation: one gate transition keeps at most one run active. -/
lemma gateStep_active_le (s : GateState) (e : GateEv)
    (h : s.active.length ≤ 1) : (gateStep s e).active.length ≤ 1 := by
  cases e with
  | arrive r =>
    simp only [gateStep]
    split
    · simp
    · simpa using h
  | finish =>
    simp only [gateStep]
    split <;> simp

/-- Any event sequence from a ≤1-active state stays ≤1-active. -/
lemma gate_foldl_le (evs : List GateEv) (s : GateState)
    (h : s.active.length ≤ 1) : (evs.foldl gateStep s).active.length ≤ 1 := by
  induction evs generalizing s with
  | nil => simpa using h
  | cons e rest ih => exact ih _ (gateStep_active_le s e h)

/-- C10: under any interleaving of trigger arrivals and run completions
starting from the free gate, at most one registration run is active
process-wide at any instant; and an arrival while a run is active is
appended to the waiter queue — every arriving request ends up active or
queued, never rejected or dropped. -/
theorem registration_lock_serializes :
    (∀ evs : List GateEv, ((evs.foldl gateStep gateInit).active).length ≤ 1) ∧
    (∀ (s : GateState) (r : Nat),
      r ∈ (gateStep s (.arrive r)).active ∨ r ∈ (gateStep s (.arrive r)).waiting) := by
  constructor
  · intro evs
    exact gate_foldl_le evs gateInit (by simp [gateInit])
  · intro s r
    simp only [gateStep]
    split
    · left
      simp
    · right
      simp
